import Mathlib

set_option maxRecDepth 100000

/-!
Shallow embedding of the zerodha/fastcache HTTP response-caching middleware.

Bytes are modelled as `Nat` values below 256 and byte strings as `List Nat`.
Go strings are modelled as Lean `String` (the requests and stored values in
question are ASCII, so Go's byte length coincides with the character count).
The MD5 digest used by the fingerprinter is implemented in full so that the
fingerprints of concrete requests can be computed inside proofs.
-/

namespace Fastcache

/-- Bytes of an ASCII string. -/
def strBytes (s : String) : List Nat := s.toList.map Char.toNat

/-- Does the list start with the pattern `p`? (helper for substring search). -/
def beginsWith : List Char → List Char → Bool
  | [], _ => true
  | _ :: _, [] => false
  | p :: ps, c :: cs => p == c && beginsWith ps cs

/-- Does the pattern `p` occur contiguously inside the list? -/
def subInList (p : List Char) : List Char → Bool
  | [] => p.isEmpty
  | c :: cs => beginsWith p (c :: cs) || subInList p cs

/-- Model of Go `strings.Contains s sub` / `bytes.Contains` (true iff `sub`
occurs inside `s`; the empty pattern always matches, as in Go). -/
def strContains (s sub : String) : Bool := subInList sub.toList s.toList

/-! ### MD5 (`crypto/md5`), executable over `Nat` with explicit `% 2^32` -/

/-- The 64 MD5 round constants. -/
def md5K : List Nat :=
  [0xd76aa478, 0xe8c7b756, 0x242070db, 0xc1bdceee,
   0xf57c0faf, 0x4787c62a, 0xa8304613, 0xfd469501,
   0x698098d8, 0x8b44f7af, 0xffff5bb1, 0x895cd7be,
   0x6b901122, 0xfd987193, 0xa679438e, 0x49b40821,
   0xf61e2562, 0xc040b340, 0x265e5a51, 0xe9b6c7aa,
   0xd62f105d, 0x02441453, 0xd8a1e681, 0xe7d3fbc8,
   0x21e1cde6, 0xc33707d6, 0xf4d50d87, 0x455a14ed,
   0xa9e3e905, 0xfcefa3f8, 0x676f02d9, 0x8d2a4c8a,
   0xfffa3942, 0x8771f681, 0x6d9d6122, 0xfde5380c,
   0xa4beea44, 0x4bdecfa9, 0xf6bb4b60, 0xbebfbc70,
   0x289b7ec6, 0xeaa127fa, 0xd4ef3085, 0x04881d05,
   0xd9d4d039, 0xe6db99e5, 0x1fa27cf8, 0xc4ac5665,
   0xf4292244, 0x432aff97, 0xab9423a7, 0xfc93a039,
   0x655b59c3, 0x8f0ccc92, 0xffeff47d, 0x85845dd1,
   0x6fa87e4f, 0xfe2ce6e0, 0xa3014314, 0x4e0811a1,
   0xf7537e82, 0xbd3af235, 0x2ad7d2bb, 0xeb86d391]

/-- The 64 MD5 per-round left-rotation amounts. -/
def md5S : List Nat :=
  [7, 12, 17, 22, 7, 12, 17, 22, 7, 12, 17, 22, 7, 12, 17, 22,
   5, 9, 14, 20, 5, 9, 14, 20, 5, 9, 14, 20, 5, 9, 14, 20,
   4, 11, 16, 23, 4, 11, 16, 23, 4, 11, 16, 23, 4, 11, 16, 23,
   6, 10, 15, 21, 6, 10, 15, 21, 6, 10, 15, 21, 6, 10, 15, 21]

/-- Little-endian bytes of a 64-byte chunk as 16 32-bit words. -/
def toWordsLE : List Nat → List Nat
  | b0 :: b1 :: b2 :: b3 :: rest =>
      (b0 + b1 * 256 + b2 * 65536 + b3 * 16777216) :: toWordsLE rest
  | _ => []

/-- `k` little-endian bytes of `n`. -/
def leBytes : Nat → Nat → List Nat
  | 0, _ => []
  | k + 1, n => n % 256 :: leBytes k (n / 256)

/-- One MD5 round: `m` is the 16-word message schedule, `st = (a, b, c, d)`. -/
def md5Round (m : List Nat) (st : Nat × Nat × Nat × Nat) (i : Nat) :
    Nat × Nat × Nat × Nat :=
  let a := st.1
  let b := st.2.1
  let c := st.2.2.1
  let d := st.2.2.2
  let notB := b ^^^ 0xffffffff
  let notD := d ^^^ 0xffffffff
  let f :=
    if i < 16 then (b &&& c) ||| (notB &&& d)
    else if i < 32 then (d &&& b) ||| (notD &&& c)
    else if i < 48 then b ^^^ c ^^^ d
    else c ^^^ (b ||| notD)
  let g :=
    if i < 16 then i
    else if i < 32 then (5 * i + 1) % 16
    else if i < 48 then (3 * i + 5) % 16
    else (7 * i) % 16
  let fv := (f + a + md5K.getD i 0 + m.getD g 0) % 4294967296
  let s := md5S.getD i 0
  let rot := (fv * 2 ^ s) % 4294967296 + fv / 2 ^ (32 - s)
  (d, (b + rot) % 4294967296, b, c)

/-- Process one 64-byte chunk. -/
def md5Chunk (chunk : List Nat) (st : Nat × Nat × Nat × Nat) :
    Nat × Nat × Nat × Nat :=
  let m := toWordsLE chunk
  let r := (List.range 64).foldl (md5Round m) st
  ((st.1 + r.1) % 4294967296, (st.2.1 + r.2.1) % 4294967296,
   (st.2.2.1 + r.2.2.1) % 4294967296, (st.2.2.2 + r.2.2.2) % 4294967296)

/-- MD5 padding: append `0x80`, zero bytes up to 56 mod 64, then the 64-bit
little-endian bit length. -/
def md5Pad (msg : List Nat) : List Nat :=
  let len := msg.length
  let padZeros := (119 - len % 64) % 64
  msg ++ 0x80 :: (List.replicate padZeros 0 ++ leBytes 8 ((len * 8) % 2 ^ 64))

/-- Iterate the compression function over `k` chunks of 64 bytes. -/
def md5Loop : Nat → List Nat → Nat × Nat × Nat × Nat → Nat × Nat × Nat × Nat
  | 0, _, st => st
  | k + 1, bs, st => md5Loop k (bs.drop 64) (md5Chunk (bs.take 64) st)

/-- `md5.Sum`: the 16-byte MD5 digest of a byte string. -/
def md5sum (msg : List Nat) : List Nat :=
  let padded := md5Pad msg
  let r := md5Loop (padded.length / 64) padded
    (0x67452301, 0xefcdab89, 0x98badcfe, 0x10325476)
  leBytes 4 r.1 ++ leBytes 4 r.2.1 ++ leBytes 4 r.2.2.1 ++ leBytes 4 r.2.2.2

/-- Lowercase hexadecimal digit. -/
def hexDigit (n : Nat) : Char := "0123456789abcdef".toList.getD n '0'

/-- `hex.EncodeToString`: lowercase hex encoding of a byte string. -/
def hexEncode (bs : List Nat) : String :=
  String.mk (bs.foldr (fun b acc => hexDigit (b / 16) :: hexDigit (b % 16) :: acc) [])

/-! ### Data model (`fastcache.go`) -/

/-- `Item`: one cached response body plus metadata. -/
structure Item where
  ContentType : String
  Compression : String
  ETag : String
  Blob : List Nat
  deriving DecidableEq

/-- The Go zero value of `Item` (what a store returns alongside an error). -/
def emptyItem : Item := { ContentType := "", Compression := "", ETag := "", Blob := [] }

/-- The `compGzip` constant. -/
def compGzip : String := "gzip"

/-- `CompressionsOptions`: gzip compression options. -/
structure CompressionsOptions where
  Enabled : Bool
  MinLength : Int
  RespectHeaders : Bool
  deriving DecidableEq

/-- `Options`: FastCache options (the `Logger` field is omitted; logging has
no effect on control flow). -/
structure Options where
  NamespaceKey : String
  TTL : Int
  ETag : Bool
  NoBlob : Bool
  IncludeQueryString : Bool
  Compression : CompressionsOptions
  deriving DecidableEq

/-- The state of one inbound request as far as the middleware reads it:
the resolved namespace `UserValue`, the `If-None-Match` header, whether
`Accept-Encoding` includes gzip, and the full-URI / path byte strings. -/
structure Request where
  namespaceVal : String
  ifNoneMatch : String
  acceptsGzip : Bool
  fullURI : List Nat
  path : List Nat
  deriving DecidableEq

/-- What the wrapped handler writes into the response, plus its returned
error: status code, body bytes, content type and `Cache-Control` header. -/
structure HandlerResult where
  status : Nat
  body : List Nat
  contentType : String
  cacheControl : String
  err : Option String
  deriving DecidableEq

/-- A call to `Store.Put` issued by the middleware. -/
structure PutCall where
  ns : String
  group : String
  uri : String
  item : Item
  ttl : Int
  deriving DecidableEq

/-- The observable outcome of one request through the `Cached` middleware:
final status, bytes written, headers set (on the response and — mirroring
the code exactly — on the request), whether the wrapped handler ran,
the `Put` call issued if any, and the error returned to the caller. -/
structure CachedOutcome where
  status : Nat
  body : List Nat
  contentTypeSet : Option String
  handlerRan : Bool
  putCalled : Option PutCall
  respETagHeader : Option String
  reqContentEncoding : Option String
  respContentEncoding : Option String
  returnedErr : Option String
  deriving DecidableEq

/-- The mutation of `o` at the top of the `Cached` closure: when compression
is enabled with `MinLength < 1`, `MinLength` is defaulted to 500. -/
def applyCompressionDefault (o : Options) : Options :=
  if o.Compression.Enabled ∧ o.Compression.MinLength < 1 then
    { o with Compression := { o.Compression with MinLength := 500 } }
  else o

/-- The fingerprint (`uri` component of the cache key): hex of the MD5 of the
full URI when `IncludeQueryString` is set, else of the path. This block is
duplicated verbatim in `Cached` and in `cache` in the source. -/
def cacheURI (o : Options) (fullURI path : List Nat) : String :=
  if o.IncludeQueryString then hexEncode (md5sum fullURI) else hexEncode (md5sum path)

/-- The alphabet of `generateRandomString`. -/
def dictionary : String := "0123456789ABCDEFGHIJKLMNOPQRSTUVWXYZabcdefghijklmnopqrstuvwxyz"

/-- `generateRandomString`, with the bytes produced by `rand.Read` passed in
explicitly (the OS entropy source is modelled as never failing). -/
def generateRandomString (randBytes : List Nat) : String :=
  String.mk (randBytes.map fun v => dictionary.toList.getD (v % 62) '0')

/-- The `If-None-Match` guard of `Cached`: ETags enabled, header longer than
4 bytes, stored ETag non-empty, and the header contains the stored ETag. -/
def etagMatches (o : Options) (ifNoneMatch : String) (stored : Item) : Prop :=
  o.ETag = true ∧ 4 < ifNoneMatch.length ∧ stored.ETag ≠ "" ∧
    strContains ifNoneMatch stored.ETag = true

instance (o : Options) (m : String) (s : Item) : Decidable (etagMatches o m s) := by
  unfold etagMatches; infer_instance

/-- Cache-fill eligibility after the handler ran: status exactly 200 and no
`no-store` in the response's `Cache-Control` header. -/
def cacheEligible (h : HandlerResult) : Prop :=
  h.status = 200 ∧ strContains h.cacheControl "no-store" = false

instance (h : HandlerResult) : Decidable (cacheEligible h) := by
  unfold cacheEligible; infer_instance

/-- Result of `FastCache.cache`: the `Put` call it issues, the `ETag`
response header it adds on success, and the error it returns. -/
structure CacheResult where
  put : PutCall
  etagHeader : Option String
  err : Option String
  deriving DecidableEq

/-- Model of `FastCache.cache`: build the item (optionally without body,
optionally gzip-compressed above `MinLength`), `Put` it, then add the quoted
`ETag` response header. `compress` is the `compressGzip` oracle returning
compressed bytes or an error; `putErr` is the store's reply to `Put`. -/
def cacheFill (o : Options) (ns group : String) (fullURI path : List Nat)
    (resp : HandlerResult) (randBytes : List Nat)
    (compress : List Nat → List Nat × Option String)
    (putErr : Option String) : CacheResult :=
  let etag := if o.ETag then generateRandomString randBytes else ""
  let uri := cacheURI o fullURI path
  let blob := if o.NoBlob then [] else resp.body
  let item0 : Item :=
    { ETag := etag, ContentType := resp.contentType, Compression := "", Blob := blob }
  let item :=
    if o.Compression.Enabled ∧ (blob.length : Int) ≥ o.Compression.MinLength then
      match compress blob with
      | (cb, none) => { item0 with Blob := cb, Compression := compGzip }
      | (_, some _) => item0
    else item0
  match putErr with
  | some e =>
      { put := ⟨ns, group, uri, item, o.TTL⟩, etagHeader := none,
        err := some ("error writing cache to store: " ++ e) }
  | none =>
      { put := ⟨ns, group, uri, item, o.TTL⟩,
        etagHeader := if o.ETag then some ("\"" ++ etag ++ "\"") else none,
        err := none }

/-- Model of the closure returned by `FastCache.Cached`. Inputs beyond the
request: the `Item` and error returned by `Store.Get`, the handler's effect
`h`, the random bytes for ETag generation, the `compressGzip` /
`decompressGzip` oracles (a decompression error yields the partial bytes the
reader produced, which the code serves after logging), and the store's reply
to `Put`. The `Get` error is only logged, so it does not influence the
outcome. -/
def cachedStep (o : Options) (group : String) (req : Request)
    (stored : Item) (getErr : Option String)
    (h : HandlerResult) (randBytes : List Nat)
    (compress decompress : List Nat → List Nat × Option String)
    (putErr : Option String) : CachedOutcome :=
  if req.namespaceVal = "" then
    { status := h.status, body := h.body, contentTypeSet := some h.contentType,
      handlerRan := true, putCalled := none, respETagHeader := none,
      reqContentEncoding := none, respContentEncoding := none, returnedErr := h.err }
  else if etagMatches (applyCompressionDefault o) req.ifNoneMatch stored then
    { status := 304, body := [], contentTypeSet := none, handlerRan := false,
      putCalled := none, respETagHeader := none, reqContentEncoding := none,
      respContentEncoding := none, returnedErr := none }
  else if stored.Blob ≠ [] then
    if (applyCompressionDefault o).Compression.Enabled ∧ stored.Compression = compGzip then
      if (applyCompressionDefault o).Compression.RespectHeaders ∧ req.acceptsGzip then
        { status := 200, body := stored.Blob, contentTypeSet := some stored.ContentType,
          handlerRan := false, putCalled := none,
          respETagHeader := if (applyCompressionDefault o).ETag then
            some ("\"" ++ stored.ETag ++ "\"") else none,
          reqContentEncoding := some compGzip, respContentEncoding := none,
          returnedErr := none }
      else
        { status := 200, body := (decompress stored.Blob).1,
          contentTypeSet := some stored.ContentType, handlerRan := false,
          putCalled := none,
          respETagHeader := if (applyCompressionDefault o).ETag then
            some ("\"" ++ stored.ETag ++ "\"") else none,
          reqContentEncoding := none, respContentEncoding := none, returnedErr := none }
    else
      { status := 200, body := stored.Blob, contentTypeSet := some stored.ContentType,
        handlerRan := false, putCalled := none,
        respETagHeader := if (applyCompressionDefault o).ETag then
          some ("\"" ++ stored.ETag ++ "\"") else none,
        reqContentEncoding := none, respContentEncoding := none, returnedErr := none }
  else if cacheEligible h then
    { status := h.status, body := h.body, contentTypeSet := some h.contentType,
      handlerRan := true,
      putCalled := some (cacheFill (applyCompressionDefault o) req.namespaceVal group
        req.fullURI req.path h randBytes compress putErr).put,
      respETagHeader := (cacheFill (applyCompressionDefault o) req.namespaceVal group
        req.fullURI req.path h randBytes compress putErr).etagHeader,
      reqContentEncoding := none, respContentEncoding := none, returnedErr := none }
  else
    { status := h.status, body := h.body, contentTypeSet := some h.contentType,
      handlerRan := true, putCalled := none, respETagHeader := none,
      reqContentEncoding := none, respContentEncoding := none, returnedErr := none }

/-- Outcome of the closure returned by `FastCache.ClearGroup`. -/
structure ClearOutcome where
  handlerRan : Bool
  delGroupsCalled : Option (String × List String)
  returnedErr : Option String
  deriving DecidableEq

/-- Model of the closure returned by `FastCache.ClearGroup`: without a
namespace it delegates to the handler (propagating its error); otherwise it
runs the handler, logs its error, deletes the groups when the response
status is 200, and returns nil. -/
def clearGroupStep (o : Options) (groups : List String) (req : Request)
    (h : HandlerResult) : ClearOutcome :=
  if req.namespaceVal = "" then
    { handlerRan := true, delGroupsCalled := none, returnedErr := h.err }
  else
    { handlerRan := true,
      delGroupsCalled := if h.status = 200 then some (req.namespaceVal, groups) else none,
      returnedErr := none }

/-! ### Coalescer key (`singleflight.go`, shown in the repository docs) -/

/-- The deduplication key of `singleFlightStore.Get`:
`fmt.Sprintf("%s:%s:%s", namespace, group, uri)`. -/
def singleFlightKey (ns group uri : String) : String :=
  ns ++ ":" ++ group ++ ":" ++ uri

/-! ### Async write-back worker (`stores/goredis/redis.go`, `putWorker`)

The worker is a single goroutine consuming a channel in a `select` loop, so
its behaviour is a sequential fold over the stream of events it observes:
an incoming put request, a ticker firing, or context cancellation. The
pipeline is modelled as the list of put requests buffered since the last
`Exec`; `commits` records each executed batch in order. -/

/-- `putReq`: the unit of work queued for the async worker. -/
structure PutReq where
  ns : String
  group : String
  uri : String
  b : Item
  ttl : Int
  deriving DecidableEq

/-- Worker state: the buffered pipeline batch, the `count` variable, the
history of committed batches, and whether the goroutine has returned. -/
structure WorkerState where
  batch : List PutReq
  count : Nat
  commits : List (List PutReq)
  stopped : Bool
  deriving DecidableEq

/-- One event observed by the worker's `select`. -/
inductive WorkerEvent where
  | put (req : PutReq)
  | tick
  | done
  deriving DecidableEq

/-- One iteration of the `putWorker` loop. On a put request the commands are
queued into the pipeline and `count` incremented; the batch is executed only
when `count` strictly exceeds `AsyncMaxCommitSize`. On a tick a non-empty
batch is executed. On context cancellation the goroutine returns at once. -/
def putWorkerStep (maxCommitSize : Int) (st : WorkerState) (ev : WorkerEvent) :
    WorkerState :=
  if st.stopped then st else
  match ev with
  | .put r =>
      let batch := st.batch ++ [r]
      let count := st.count + 1
      if (count : Int) > maxCommitSize then
        { batch := [], count := 0, commits := st.commits ++ [batch], stopped := false }
      else
        { st with batch := batch, count := count }
  | .tick =>
      if 0 < st.count then
        { batch := [], count := 0, commits := st.commits ++ [st.batch], stopped := false }
      else st
  | .done => { st with stopped := true }

/-- The state of a fresh worker. -/
def initWorkerState : WorkerState :=
  { batch := [], count := 0, commits := [], stopped := false }

/-- Run the worker over a finite stream of events. -/
def runWorker (maxCommitSize : Int) (evs : List WorkerEvent) : WorkerState :=
  evs.foldl (putWorkerStep maxCommitSize) initWorkerState

/-! ### Concrete fixtures (for witnesses and counterexamples) -/

/-- Identity compression oracle: returns its input with no error. -/
def idOracle : List Nat → List Nat × Option String := fun b => (b, none)

/-- Decompression oracle returning fixed plain bytes with no error. -/
def plainOracle : List Nat → List Nat × Option String := fun _ => (strBytes "PLAIN", none)

/-- Compression disabled. -/
def offCompression : CompressionsOptions :=
  { Enabled := false, MinLength := 0, RespectHeaders := false }

/-- Options of the test server's `/cached` route: ETags on, no compression. -/
def etagOpts : Options :=
  { NamespaceKey := "req", TTL := 5000000000, ETag := true, NoBlob := false,
    IncludeQueryString := false, Compression := offCompression }

/-- Options with query-string fingerprinting enabled. -/
def qsOpts : Options :=
  { NamespaceKey := "req", TTL := 5000000000, ETag := true, NoBlob := false,
    IncludeQueryString := true, Compression := offCompression }

/-- Options with compression enabled and `RespectHeaders` set. -/
def gzOpts : Options :=
  { NamespaceKey := "req", TTL := 0, ETag := false, NoBlob := false,
    IncludeQueryString := false,
    Compression := { Enabled := true, MinLength := 10, RespectHeaders := true } }

/-- A handler producing a plain 200 "ok" response. -/
def okHandler : HandlerResult :=
  { status := 200, body := strBytes "ok", contentType := "text/plain",
    cacheControl := "", err := none }

/-- A 200 handler that also returns an error. -/
def errHandler : HandlerResult := { okHandler with err := some "handler failed" }

/-- A stored item with a 2-byte ETag. -/
def shortETagItem : Item :=
  { ContentType := "text/plain", Compression := "", ETag := "ab",
    Blob := strBytes "hello" }

/-- A request presenting exactly that 2-byte validator. -/
def shortMatchReq : Request :=
  { namespaceVal := "test", ifNoneMatch := "ab", acceptsGzip := false,
    fullURI := strBytes "http://127.0.0.1:10200/cached", path := strBytes "/cached" }

/-- A stored item with a 16-character generated-style ETag. -/
def matchItem : Item :=
  { ContentType := "text/plain", Compression := "", ETag := "ABCDEFGHIJKLMNOP",
    Blob := strBytes "hello" }

/-- A request presenting that validator, quoted. -/
def matchReq : Request :=
  { namespaceVal := "test", ifNoneMatch := "\"ABCDEFGHIJKLMNOP\"", acceptsGzip := false,
    fullURI := strBytes "http://127.0.0.1:10200/cached", path := strBytes "/cached" }

/-- A request with no validator (cache-miss scenario). -/
def missReq : Request :=
  { namespaceVal := "test", ifNoneMatch := "", acceptsGzip := false,
    fullURI := strBytes "http://127.0.0.1:10200/cached", path := strBytes "/cached" }

/-- A stored gzip-tagged item. -/
def gzStored : Item :=
  { ContentType := "text/plain", Compression := "gzip", ETag := "",
    Blob := strBytes "GZBYTES" }

/-- A request whose `Accept-Encoding` includes gzip. -/
def gzReq : Request :=
  { namespaceVal := "test", ifNoneMatch := "", acceptsGzip := true,
    fullURI := strBytes "http://127.0.0.1:10200/compressed",
    path := strBytes "/compressed" }

/-- The same request without gzip in `Accept-Encoding`. -/
def gzReqNoAccept : Request := { gzReq with acceptsGzip := false }

/-- The Item the goredis store returns together with its "invalid type
received for blob" error: content type, ETag and compression already
decoded, blob not. -/
def getErrItem : Item :=
  { ContentType := "text/plain", Compression := "", ETag := "ABCDEFGHIJKLMNOP",
    Blob := [] }

/-- A request presenting the validator of `getErrItem`. -/
def getErrReq : Request :=
  { namespaceVal := "test", ifNoneMatch := "\"ABCDEFGHIJKLMNOP\"", acceptsGzip := false,
    fullURI := strBytes "http://127.0.0.1:10200/x", path := strBytes "/x" }

/-- The two full URIs of the repository's own lexicographical-order test,
differing only in query-parameter order. -/
def qsFullURI1 : List Nat := strBytes "http://127.0.0.1:10200/include-qs?foo=bar&baz=qux"

/-- The same URI with the two query parameters swapped. -/
def qsFullURI2 : List Nat := strBytes "http://127.0.0.1:10200/include-qs?baz=qux&foo=bar"

/-- The common path of the two URIs above. -/
def qsPath : List Nat := strBytes "/include-qs"

/-- A sample async put request. -/
def sampleReq1 : PutReq := { ns := "ns", group := "grp", uri := "u1", b := emptyItem, ttl := 0 }

/-- A second sample async put request. -/
def sampleReq2 : PutReq := { ns := "ns", group := "grp", uri := "u2", b := emptyItem, ttl := 0 }

/-! ## Theorems -/

/-- Sanity check: MD5 of the empty message agrees with the published digest. -/
theorem md5_empty : hexEncode (md5sum []) = "d41d8cd98f00b204e9800998ecf8427e" := by
  decide

/-- Sanity check: MD5 of "abc" agrees with the published digest. -/
theorem md5_abc :
    hexEncode (md5sum (strBytes "abc")) = "900150983cd24fb0d6963f7d28e17f72" := by
  decide

/-- Defaulting `MinLength` leaves the `ETag` option unchanged. -/
@[simp] theorem applyCompressionDefault_ETag (o : Options) :
    (applyCompressionDefault o).ETag = o.ETag := by
  unfold applyCompressionDefault; split <;> rfl

/-- The validator guard is unaffected by the `MinLength` defaulting. -/
theorem etagMatches_applyCompressionDefault (o : Options) (m : String) (s : Item) :
    etagMatches (applyCompressionDefault o) m s ↔ etagMatches o m s := by
  unfold etagMatches
  rw [applyCompressionDefault_ETag]

/-- Helper: with a namespace and a matching validator, `Cached` short-circuits
to a bare 304 response. -/
theorem cachedStep_etagMatch {o : Options} {group : String} {req : Request}
    {stored : Item} (getErr : Option String) (h : HandlerResult) (rb : List Nat)
    (compress decompress : List Nat → List Nat × Option String) (putErr : Option String)
    (hns : req.namespaceVal ≠ "") (hm : etagMatches o req.ifNoneMatch stored) :
    cachedStep o group req stored getErr h rb compress decompress putErr =
      { status := 304, body := [], contentTypeSet := none, handlerRan := false,
        putCalled := none, respETagHeader := none, reqContentEncoding := none,
        respContentEncoding := none, returnedErr := none } := by
  unfold cachedStep
  rw [if_neg hns, if_pos ((etagMatches_applyCompressionDefault o _ _).mpr hm)]

/-- C1 (corrected): with a non-empty namespace and ETags enabled, an
`If-None-Match` header longer than 4 bytes that contains the stored non-empty
ETag yields a bare 304 with empty body and no handler execution; when the
validator guard fails and a cached blob not tagged as gzip-compressed is
present, the response is a 200 carrying the full stored body, again without
executing the handler. -/
theorem cachedConditionalRequests (o : Options) (group : String) (req : Request)
    (stored : Item) (getErr : Option String) (h : HandlerResult) (rb : List Nat)
    (compress decompress : List Nat → List Nat × Option String) (putErr : Option String)
    (hns : req.namespaceVal ≠ "") (hetag : o.ETag = true) :
    (4 < req.ifNoneMatch.length → stored.ETag ≠ "" →
      strContains req.ifNoneMatch stored.ETag = true →
      cachedStep o group req stored getErr h rb compress decompress putErr =
        { status := 304, body := [], contentTypeSet := none, handlerRan := false,
          putCalled := none, respETagHeader := none, reqContentEncoding := none,
          respContentEncoding := none, returnedErr := none })
    ∧
    (¬ etagMatches o req.ifNoneMatch stored → stored.Blob ≠ [] →
      stored.Compression ≠ compGzip →
      (cachedStep o group req stored getErr h rb compress decompress putErr).status = 200 ∧
      (cachedStep o group req stored getErr h rb compress decompress putErr).body = stored.Blob ∧
      (cachedStep o group req stored getErr h rb compress decompress putErr).handlerRan = false) := by
  constructor
  · intro h1 h2 h3
    exact cachedStep_etagMatch getErr h rb compress decompress putErr hns ⟨hetag, h1, h2, h3⟩
  · intro hnm hblob hcomp
    unfold cachedStep
    rw [if_neg hns, if_neg ((not_congr (etagMatches_applyCompressionDefault o _ _)).mpr hnm),
      if_pos hblob, if_neg (fun hc => hcomp hc.2)]
    exact ⟨rfl, rfl, rfl⟩

/-- C1 witness: applying the theorem to a concrete matched request yields the
concrete 304 outcome. -/
theorem cachedConditionalRequests_witness :
    cachedStep etagOpts "test" matchReq matchItem none okHandler [] idOracle idOracle none =
      { status := 304, body := [], contentTypeSet := none, handlerRan := false,
        putCalled := none, respETagHeader := none, reqContentEncoding := none,
        respContentEncoding := none, returnedErr := none } :=
  (cachedConditionalRequests etagOpts "test" matchReq matchItem none okHandler []
    idOracle idOracle none (by decide) (by decide)).1 (by decide) (by decide) (by decide)

/-- C1 counterexample: the stored ETag "ab" is non-empty and contained in the
`If-None-Match` header "ab", yet the response is a 200 carrying the blob,
because the code additionally requires the header to be longer than 4 bytes. -/
theorem shortValidatorNo304 :
    strContains shortMatchReq.ifNoneMatch shortETagItem.ETag = true ∧
    shortETagItem.ETag ≠ "" ∧ etagOpts.ETag = true ∧ shortMatchReq.namespaceVal ≠ "" ∧
    (cachedStep etagOpts "test" shortMatchReq shortETagItem none okHandler []
      idOracle idOracle none).status = 200 ∧
    (cachedStep etagOpts "test" shortMatchReq shortETagItem none okHandler []
      idOracle idOracle none).body = strBytes "hello" := by
  decide

/-- C2 (confirmed): on a cache miss (no validator match, empty stored blob)
with a namespace present, the wrapped handler executes and a `Put` is issued
to the store iff the response status is exactly 200 and the response's
`Cache-Control` header does not contain "no-store". -/
theorem cacheFillIffEligible (o : Options) (group : String) (req : Request)
    (stored : Item) (getErr : Option String) (h : HandlerResult) (rb : List Nat)
    (compress decompress : List Nat → List Nat × Option String) (putErr : Option String)
    (hns : req.namespaceVal ≠ "")
    (hnm : ¬ etagMatches o req.ifNoneMatch stored)
    (hmiss : stored.Blob = []) :
    (cachedStep o group req stored getErr h rb compress decompress putErr).handlerRan = true ∧
    ((cachedStep o group req stored getErr h rb compress decompress putErr).putCalled.isSome = true ↔
      (h.status = 200 ∧ strContains h.cacheControl "no-store" = false)) := by
  unfold cachedStep
  rw [if_neg hns, if_neg ((not_congr (etagMatches_applyCompressionDefault o _ _)).mpr hnm),
    if_neg (by simp [hmiss])]
  by_cases he : cacheEligible h
  · rw [if_pos he]
    exact ⟨rfl, ⟨fun _ => he, fun _ => rfl⟩⟩
  · rw [if_neg he]
    refine ⟨rfl, ⟨fun hfalse => ?_, fun hrhs => absurd hrhs he⟩⟩
    simp at hfalse

/-- C2 witness: a concrete miss with a plain 200 response is stored. -/
theorem cacheFillIffEligible_witness :
    (cachedStep etagOpts "test" missReq emptyItem none okHandler
      (List.replicate 16 65) idOracle idOracle none).handlerRan = true ∧
    ((cachedStep etagOpts "test" missReq emptyItem none okHandler
      (List.replicate 16 65) idOracle idOracle none).putCalled.isSome = true ↔
      (okHandler.status = 200 ∧ strContains okHandler.cacheControl "no-store" = false)) :=
  cacheFillIffEligible etagOpts "test" missReq emptyItem none okHandler
    (List.replicate 16 65) idOracle idOracle none (by decide) (by decide) (by decide)

/-- C3 (code_bug): with `IncludeQueryString` enabled the fingerprint is the
MD5 of the raw full URI, so the two requests of the repository's own
`TestQueryStringLexicographical` — identical up to query-parameter order —
produce different fingerprints, on lookup and on fill alike (both use
`cacheURI`). -/
theorem queryOrderChangesFingerprint :
    qsOpts.IncludeQueryString = true ∧
    cacheURI qsOpts qsFullURI1 qsPath ≠ cacheURI qsOpts qsFullURI2 qsPath := by
  decide

/-- C4 (code_bug): with `AsyncMaxCommitSize = 1`, the first buffered write
does not trigger a commit even though the batch has reached the configured
maximum, and the second write commits a batch of two writes — exceeding the
configured maximum — because the worker commits only when `count` strictly
exceeds `AsyncMaxCommitSize`. -/
theorem asyncCommitExceedsMax :
    (runWorker 1 [.put sampleReq1]).commits = [] ∧
    (runWorker 1 [.put sampleReq1]).batch = [sampleReq1] ∧
    (runWorker 1 [.put sampleReq1, .put sampleReq2]).commits = [[sampleReq1, sampleReq2]] := by
  decide

/-- C5 counterexample: a put request followed by the shutdown signal leaves
the worker stopped with the pending write still in the batch and nothing
ever committed — the partially filled batch is silently discarded. -/
theorem shutdownDiscardsPendingBatch :
    (runWorker 5 [.put sampleReq1, .done]).stopped = true ∧
    (runWorker 5 [.put sampleReq1, .done]).batch = [sampleReq1] ∧
    (runWorker 5 [.put sampleReq1, .done]).commits = [] := by
  decide

/-- C5 (corrected, amended): on the shutdown signal the worker goroutine
returns immediately: it commits nothing, regardless of the pending batch,
for any state and any prior event history. -/
theorem shutdownCommitsNothing (maxCommitSize : Int) (st : WorkerState)
    (evs : List WorkerEvent) :
    (putWorkerStep maxCommitSize st .done).commits = st.commits ∧
    (putWorkerStep maxCommitSize st .done).stopped = true ∧
    (runWorker maxCommitSize (evs ++ [.done])).commits =
      (runWorker maxCommitSize evs).commits := by
  have base : ∀ s : WorkerState,
      (putWorkerStep maxCommitSize s .done).commits = s.commits ∧
      (putWorkerStep maxCommitSize s .done).stopped = true := by
    intro s
    by_cases hs : s.stopped <;> simp [putWorkerStep, hs]
  refine ⟨(base st).1, (base st).2, ?_⟩
  rw [runWorker, runWorker, List.foldl_append]
  exact (base _).1

/-- C6 (code_bug): serving a stored gzip-tagged blob with compression
enabled: when `RespectHeaders` is set and the request accepts gzip, the
stored bytes are written unchanged but the `Content-Encoding: gzip` marker
lands on the request's header object while the response carries no such
marker; when the request does not accept gzip, the blob is handed to the
gzip decompressor and the decompressed bytes are written. -/
theorem compressedServeMarksRequestNotResponse :
    ((cachedStep gzOpts "test" gzReq gzStored none okHandler []
        idOracle plainOracle none).body = gzStored.Blob ∧
     (cachedStep gzOpts "test" gzReq gzStored none okHandler []
        idOracle plainOracle none).reqContentEncoding = some "gzip" ∧
     (cachedStep gzOpts "test" gzReq gzStored none okHandler []
        idOracle plainOracle none).respContentEncoding = none) ∧
    ((cachedStep gzOpts "test" gzReqNoAccept gzStored none okHandler []
        idOracle plainOracle none).body = strBytes "PLAIN" ∧
     (cachedStep gzOpts "test" gzReqNoAccept gzStored none okHandler []
        idOracle plainOracle none).reqContentEncoding = none) := by
  decide

/-- C7 counterexample: when `Store.Get` returns an error together with a
partially decoded Item (content type and ETag present, blob missing — the
goredis adapter does exactly this), a request presenting the returned ETag
receives a 304 from the failed lookup and the handler never executes. -/
theorem getErrorCanServe304 :
    (cachedStep etagOpts "test" getErrReq getErrItem
      (some "goredis-store: invalid type received for blob") okHandler []
      idOracle idOracle none).handlerRan = false ∧
    (cachedStep etagOpts "test" getErrReq getErrItem
      (some "goredis-store: invalid type received for blob") okHandler []
      idOracle idOracle none).status = 304 := by
  decide

/-- C7 (corrected, amended): a `Get` error is only logged: the outcome is
identical to the outcome with no error and the same returned Item; in
particular, when the returned Item is the zero Item (the usual companion of
an error), the request is handled as a miss — the handler executes and its
response is served. -/
theorem getErrorIgnored (o : Options) (group : String) (req : Request)
    (stored : Item) (e : String) (h : HandlerResult) (rb : List Nat)
    (compress decompress : List Nat → List Nat × Option String) (putErr : Option String) :
    cachedStep o group req stored (some e) h rb compress decompress putErr =
      cachedStep o group req stored none h rb compress decompress putErr ∧
    (req.namespaceVal ≠ "" → stored = emptyItem →
      (cachedStep o group req stored (some e) h rb compress decompress putErr).handlerRan = true ∧
      (cachedStep o group req stored (some e) h rb compress decompress putErr).status = h.status ∧
      (cachedStep o group req stored (some e) h rb compress decompress putErr).body = h.body) := by
  refine ⟨rfl, fun hns hemp => ?_⟩
  subst hemp
  unfold cachedStep
  rw [if_neg hns, if_neg (by simp [etagMatches, emptyItem]), if_neg (by simp [emptyItem])]
  by_cases he : cacheEligible h
  · rw [if_pos he]
    exact ⟨rfl, rfl, rfl⟩
  · rw [if_neg he]
    exact ⟨rfl, rfl, rfl⟩

/-- C7 witness: a concrete erroring lookup with the zero Item is served by
the handler. -/
theorem getErrorIgnored_witness :
    (cachedStep etagOpts "test" missReq emptyItem (some "boom") okHandler []
      idOracle idOracle none).handlerRan = true ∧
    (cachedStep etagOpts "test" missReq emptyItem (some "boom") okHandler []
      idOracle idOracle none).status = okHandler.status ∧
    (cachedStep etagOpts "test" missReq emptyItem (some "boom") okHandler []
      idOracle idOracle none).body = okHandler.body :=
  (getErrorIgnored etagOpts "test" missReq emptyItem "boom" okHandler []
    idOracle idOracle none).2 (by decide) rfl

/-- Helper: splitting a character list at the first colon is unambiguous
when neither left part contains a colon. -/
theorem colonSplitInj (a : List Char) : ∀ (b x y : List Char), ':' ∉ a → ':' ∉ b →
    a ++ ':' :: x = b ++ ':' :: y → a = b ∧ x = y := by
  induction a with
  | nil =>
    intro b x y _ hb h
    cases b with
    | nil => simpa using h
    | cons d bs =>
      simp only [List.nil_append, List.cons_append, List.cons.injEq] at h
      cases h.1
      exact absurd (List.mem_cons_self _ _) hb
  | cons c as ih =>
    intro b x y ha hb h
    cases b with
    | nil =>
      simp only [List.cons_append, List.nil_append, List.cons.injEq] at h
      cases h.1
      exact absurd (List.mem_cons_self _ _) ha
    | cons d bs =>
      simp only [List.cons_append, List.cons.injEq] at h
      obtain ⟨rfl, h2⟩ := h
      have hr := ih bs x y (fun hm => ha (List.mem_cons_of_mem _ hm))
        (fun hm => hb (List.mem_cons_of_mem _ hm)) h2
      exact ⟨by rw [hr.1], hr.2⟩

/-- C8 counterexample: two distinct (namespace, group, uri) triples whose
coalescing keys coincide, so their reads are deduplicated together. -/
theorem singleFlightKeyCollision :
    singleFlightKey "a:b" "c" "d" = singleFlightKey "a" "b:c" "d" ∧
    ¬ (("a:b" : String) = "a" ∧ ("c" : String) = "b:c" ∧ ("d" : String) = "d") := by
  decide

/-- C8 (corrected, amended): the colon-joined coalescing key is injective on
triples whose namespace and group contain no colon character (in the
middleware's own usage the uri component is a hex digest, and namespaces
and groups are colon-free identifiers). -/
theorem singleFlightKeyInjOnColonFree (n1 g1 u1 n2 g2 u2 : String)
    (hn1 : ':' ∉ n1.data) (hg1 : ':' ∉ g1.data)
    (hn2 : ':' ∉ n2.data) (hg2 : ':' ∉ g2.data)
    (h : singleFlightKey n1 g1 u1 = singleFlightKey n2 g2 u2) :
    n1 = n2 ∧ g1 = g2 ∧ u1 = u2 := by
  have hcolon : (":" : String).data = [':'] := rfl
  have hd : n1.data ++ ':' :: (g1.data ++ ':' :: u1.data) =
      n2.data ++ ':' :: (g2.data ++ ':' :: u2.data) := by
    have h2 := congrArg String.data h
    simp only [singleFlightKey, String.data_append, hcolon, List.append_assoc,
      List.singleton_append] at h2
    exact h2
  obtain ⟨e1, e2⟩ := colonSplitInj _ _ _ _ hn1 hn2 hd
  obtain ⟨e3, e4⟩ := colonSplitInj _ _ _ _ hg1 hg2 e2
  exact ⟨String.ext e1, String.ext e3, String.ext e4⟩

/-- C8 witness: the amended theorem applied to concrete colon-free keys. -/
theorem singleFlightKeyInjOnColonFree_witness :
    ("XX1234" : String) = "XX1234" ∧ ("orders" : String) = "orders" ∧
      ("deadbeef" : String) = "deadbeef" :=
  singleFlightKeyInjOnColonFree "XX1234" "orders" "deadbeef" "XX1234" "orders" "deadbeef"
    (by decide) (by decide) (by decide) (by decide) rfl

/-- C10 (confirmed): with a non-empty namespace both middleware closures
always return nil — the handler's error is swallowed — and a 200 response
still fills the cache (respectively still triggers the group delete),
whatever error the handler returned. -/
theorem middlewareSwallowsHandlerErrors (o : Options) (group : String)
    (groups : List String) (req : Request) (stored : Item) (getErr : Option String)
    (h : HandlerResult) (rb : List Nat)
    (compress decompress : List Nat → List Nat × Option String) (putErr : Option String)
    (hns : req.namespaceVal ≠ "") :
    (cachedStep o group req stored getErr h rb compress decompress putErr).returnedErr = none ∧
    (clearGroupStep o groups req h).returnedErr = none ∧
    (stored.Blob = [] → ¬ etagMatches o req.ifNoneMatch stored →
      h.status = 200 → strContains h.cacheControl "no-store" = false →
      (cachedStep o group req stored getErr h rb compress decompress putErr).putCalled.isSome = true) ∧
    (h.status = 200 →
      (clearGroupStep o groups req h).delGroupsCalled = some (req.namespaceVal, groups)) := by
  refine ⟨?_, ?_, ?_, ?_⟩
  · unfold cachedStep
    rw [if_neg hns]
    split_ifs <;> rfl
  · unfold clearGroupStep
    rw [if_neg hns]
  · intro hmiss hnm h200 hcc
    have he : cacheEligible h := ⟨h200, hcc⟩
    unfold cachedStep
    rw [if_neg hns, if_neg ((not_congr (etagMatches_applyCompressionDefault o _ _)).mpr hnm),
      if_neg (by simp [hmiss]), if_pos he]
    rfl
  · intro h200
    unfold clearGroupStep
    rw [if_neg hns]
    simp [h200]

/-- C10 witness: a 200 response from an erroring handler on a miss is still
cached and the middleware returns nil; the group-clearing middleware also
returns nil and deletes the group. -/
theorem middlewareSwallowsHandlerErrors_witness :
    (cachedStep etagOpts "test" missReq emptyItem none errHandler []
      idOracle idOracle none).returnedErr = none ∧
    (cachedStep etagOpts "test" missReq emptyItem none errHandler []
      idOracle idOracle none).putCalled.isSome = true ∧
    (clearGroupStep etagOpts ["test"] missReq errHandler).returnedErr = none ∧
    (clearGroupStep etagOpts ["test"] missReq errHandler).delGroupsCalled =
      some ("test", ["test"]) := by
  have hw := middlewareSwallowsHandlerErrors etagOpts "test" ["test"] missReq emptyItem
    none errHandler [] idOracle idOracle none (by decide)
  exact ⟨hw.1, hw.2.2.1 (by decide) (by decide) (by decide) (by decide), hw.2.1,
    hw.2.2.2 (by decide)⟩

end Fastcache
